import Mathlib

/-
  Verification of the RunnerBuddy frontend (SvelteKit + Tauri) adoption
  and migration UI against its specification.

  The definitions below are shallow embeddings of the TypeScript source:
  - src/src/lib/api.ts              (data model types)
  - src/src/lib/format.ts           (scopeLabel)
  - src/unnamed/part_002            (formatError / extractMessage)
  - src/src/lib/components/ConfirmDialog.svelte (canConfirm)
  - src/src/routes/+page.svelte     (dashboard predicates and handlers)
  - src/src/routes/onboarding/+page.svelte (wizard option state and handleExecute)

  JavaScript `string | null | undefined` values are modelled as
  `Option String`; JS truthiness of such a value is `strTruthy`.
-/

namespace RunnerBuddy

/-- JS truthiness of a `string | null | undefined` value: null/undefined and
the empty string are falsy, every other string is truthy. -/
def strTruthy : Option String → Bool
  | Option.none => false
  | Option.some s => !s.isEmpty

/-- `MigrationStatus` from src/src/lib/api.ts. -/
inductive MigrationStatus
  | none
  | moved
  | verified
  | failed
deriving DecidableEq, Repr

/-- `InstallMode` from src/src/lib/api.ts. -/
inductive InstallMode
  | managed
  | adopted
deriving DecidableEq, Repr

/-- `ServiceProvider` from src/src/lib/api.ts. -/
inductive ServiceProvider
  | runnerbuddy
  | external
  | unknown
deriving DecidableEq, Repr

/-- `RunnerScope` from src/src/lib/api.ts: a tagged union over repo, org and
enterprise scopes. -/
inductive RunnerScope
  | repo (owner : String) (repoName : String)
  | org (orgName : String)
  | enterprise (enterpriseSlug : String)
deriving DecidableEq, Repr

/-- `InstallConfig` from src/src/lib/api.ts. -/
structure InstallConfig where
  mode : InstallMode
  install_path : String
  adopted_from_path : Option String := Option.none
  migration_status : Option MigrationStatus := Option.none
deriving DecidableEq, Repr

/-- The `external_restore` record of `RunnerServiceConfig`. -/
structure ExternalRestore where
  id : Option String := Option.none
  path : Option String := Option.none
deriving DecidableEq, Repr

/-- `RunnerServiceConfig` from src/src/lib/api.ts. -/
structure RunnerServiceConfig where
  installed : Bool
  run_on_boot : Bool
  provider : ServiceProvider
  external_id : Option String := Option.none
  external_path : Option String := Option.none
  external_restore : Option ExternalRestore := Option.none
deriving DecidableEq, Repr

/-- `RunnerProfile` from src/src/lib/api.ts (fields not read by any embedded
function are kept with their types but defaulted). -/
structure RunnerProfile where
  runner_id : String
  display_name : String := ""
  scope : Option RunnerScope := Option.none
  runner_name : String := ""
  labels : List String := []
  work_dir : String := ""
  install : InstallConfig
  runner_version : Option String := Option.none
  pat_alias : String := ""
  service : RunnerServiceConfig
deriving DecidableEq, Repr

/-- `DiscoveryCandidate` from src/src/lib/api.ts. -/
structure DiscoveryCandidate where
  candidate_id : String
  install_path : String
  runner_name : Option String := Option.none
  labels : List String := []
  scope : Option RunnerScope := Option.none
  work_dir : Option String := Option.none
  service_present : Bool
  service_id : Option String := Option.none
  service_path : Option String := Option.none
deriving DecidableEq, Repr

/-- `scopeLabel` from src/src/lib/format.ts (the identical helper also
appears in both route components). -/
def scopeLabel : Option RunnerScope → String
  | Option.none => "Scope unknown"
  | Option.some (RunnerScope.repo owner repoName) => owner ++ "/" ++ repoName
  | Option.some (RunnerScope.org orgName) => orgName
  | Option.some (RunnerScope.enterprise enterpriseSlug) => enterpriseSlug

/-- `migrationStatus` from src/src/routes/+page.svelte: the displayed status
string, defaulting to "none". -/
def migrationStatus : Option RunnerProfile → Option MigrationStatus
  | Option.none => Option.some MigrationStatus.none
  | Option.some r =>
      match r.install.migration_status with
      | Option.none => Option.some MigrationStatus.none
      | Option.some s => Option.some s

/-- `canDeleteOriginal` from src/src/routes/+page.svelte: delete-original is
allowed when the runner exists, `migration_status === "verified"` and
`adopted_from_path` is truthy. -/
def canDeleteOriginal : Option RunnerProfile → Bool
  | Option.none => false
  | Option.some r =>
      decide (r.install.migration_status = Option.some MigrationStatus.verified)
        && strTruthy r.install.adopted_from_path

/-- `canRollbackMove` from src/src/routes/+page.svelte. -/
def canRollbackMove : Option RunnerProfile → Bool
  | Option.none => false
  | Option.some r =>
      if r.install.mode ≠ InstallMode.managed then false
      else if !strTruthy r.install.adopted_from_path then false
      else if r.service.provider = ServiceProvider.external then false
      else decide (r.install.migration_status ≠ Option.some MigrationStatus.verified)

/-- The `disabled` predicate of the dashboard Delete-original-install button:
`isBusy || !canDeleteOriginal(selectedRunner())`. -/
def deleteOriginalButtonDisabled (isBusy : Bool) (r : Option RunnerProfile) : Bool :=
  isBusy || !canDeleteOriginal r

/-- The `disabled` predicate of the dashboard Rollback-move button:
`isBusy || !canRollbackMove(selectedRunner())`. -/
def rollbackMoveButtonDisabled (isBusy : Bool) (r : Option RunnerProfile) : Bool :=
  isBusy || !canRollbackMove r

mutual

/-- A JavaScript runtime value as seen by `formatError`. -/
inductive JSValue
  | vStr (s : String)
  | vNum (stringRendering : String)
  | vBool (b : Bool)
  | vNull
  | vUndefined
  | vError (message : String)
  | vObj (fields : JSFields)

/-- The ordered string-keyed fields of a plain JS object. -/
inductive JSFields
  | nil
  | field (key : String) (value : JSValue) (rest : JSFields)

end

/-- Property lookup `record[key]` on a plain object: first field with the
given key, if any. -/
def jlookup : JSFields → String → Option JSValue
  | JSFields.nil, _ => Option.none
  | JSFields.field k v rest, key =>
      if k = key then Option.some v else jlookup rest key

/-- The `{code?, message}` record returned by `extractMessage`. -/
structure ExtractedMessage where
  code : Option String
  message : String
deriving DecidableEq, Repr

/-- The JS `String.prototype.trim()`: strip leading and trailing whitespace.
Written over the character list so that it stays kernel-computable (the
library `String.trim` does not reduce); whitespace is `Char.isWhitespace`. -/
def jsTrim (s : String) : String :=
  String.mk
    (((s.data.dropWhile fun c => c.isWhitespace).reverse.dropWhile
        fun c => c.isWhitespace).reverse)

/-- `readStringField` from src/unnamed/part_002: the value of the field when it is
a string that is non-empty after trimming, else null. -/
def readStringField (fields : JSFields) (key : String) : Option String :=
  match jlookup fields key with
  | Option.some (JSValue.vStr s) =>
      if (jsTrim s).length ≠ 0 then Option.some s else Option.none
  | _ => Option.none

mutual

/-- `extractMessage` from src/unnamed/part_002. Primitives (strings,
numbers, booleans, null, undefined) fail the `isRecord` guard and yield
null. Plain objects first try the direct
`message`/`error`/`details`/`reason` string fields (with the optional
`code` string field as prefix data), then recurse into the `error`,
`cause`, `data` fields in order via `extractNestedKey`. An `Error`
instance also passes `isRecord` (`typeof` is "object" and it is non-null),
and indexing it reads its own `message` property while the other probed
keys (`error`, `details`, `reason`, `code`, `cause`, `data`) are absent; a
modelled `Error` carries exactly its message string, so the direct lookup
yields that message when it is non-blank and nothing else is found. -/
def extractMessage : JSValue → Option ExtractedMessage
  | JSValue.vObj fields =>
      match (readStringField fields "message").orElse (fun _ =>
          (readStringField fields "error").orElse (fun _ =>
          (readStringField fields "details").orElse (fun _ =>
          readStringField fields "reason"))) with
      | Option.some m => Option.some ⟨readStringField fields "code", m⟩
      | Option.none =>
          (extractNestedKey fields (readStringField fields "code") "error").orElse fun _ =>
          (extractNestedKey fields (readStringField fields "code") "cause").orElse fun _ =>
          extractNestedKey fields (readStringField fields "code") "data"
  | JSValue.vError m =>
      if (jsTrim m).length ≠ 0 then
        Option.some ⟨Option.none, m⟩
      else Option.none
  | _ => Option.none

/-- One iteration of the nested-key loop in `extractMessage`: find the first
field with the given key, recurse into its value, and on success merge the
outer `code` over the nested one (`code ?? nested.code`). -/
def extractNestedKey : JSFields → Option String → String → Option ExtractedMessage
  | JSFields.nil, _, _ => Option.none
  | JSFields.field k v rest, code, key =>
      if k = key then
        match extractMessage v with
        | Option.some nested =>
            Option.some ⟨code.orElse fun _ => nested.code, nested.message⟩
        | Option.none => Option.none
      else extractNestedKey rest code key

end

/-- `String(value)` for the modelled values: matches the JS `String()`
coercion, with `Error` rendering as `Error` or `Error: message`. -/
def jsToString : JSValue → String
  | JSValue.vStr s => s
  | JSValue.vNum r => r
  | JSValue.vBool b => if b then "true" else "false"
  | JSValue.vNull => "null"
  | JSValue.vUndefined => "undefined"
  | JSValue.vError m => if m.isEmpty then "Error" else "Error: " ++ m
  | JSValue.vObj _ => "[object Object]"

/-- A JSON string literal: quoted, with backslash and quote escaped. -/
def jsonQuote (s : String) : String :=
  "\"" ++ String.join (s.data.map fun c =>
    if c = '\\' then "\\\\" else if c = '"' then "\\\"" else String.singleton c) ++ "\""

mutual

/-- `JSON.stringify` on the modelled values: undefined serialises to nothing
(the JS call returns undefined), `Error` instances have no enumerable
fields, object fields whose value does not serialise are skipped. -/
def jsonStringify : JSValue → Option String
  | JSValue.vStr s => Option.some (jsonQuote s)
  | JSValue.vNum r => Option.some r
  | JSValue.vBool b => Option.some (if b then "true" else "false")
  | JSValue.vNull => Option.some "null"
  | JSValue.vUndefined => Option.none
  | JSValue.vError _ => Option.some "\x7b\x7d"
  | JSValue.vObj fields =>
      Option.some ("\x7b" ++ String.intercalate "," (jsonFields fields) ++ "\x7d")

/-- Serialised `key:value` members of an object, skipping non-serialisable
values. -/
def jsonFields : JSFields → List String
  | JSFields.nil => []
  | JSFields.field k v rest =>
      match jsonStringify v with
      | Option.some sv => (jsonQuote k ++ ":" ++ sv) :: jsonFields rest
      | Option.none => jsonFields rest

end

/-- `formatError` from src/unnamed/part_002. Strings pass through; `Error`
yields its message or, when that is empty, its `String()` rendering; then an
extractable message is used with an optional code prefix; otherwise the
`String()` rendering when truthy and distinct from the generic object tag,
else the JSON rendering. The JS try/catch fallback "Unknown error" guards a
throwing or undefined-valued `JSON.stringify`; the stringify of the model is
total, and its undefined result is mapped to the same fallback. -/
def formatError (v : JSValue) : String :=
  match v with
  | JSValue.vStr s => s
  | JSValue.vError m => if m.isEmpty then jsToString v else m
  | _ =>
      match extractMessage v with
      | Option.some em =>
          match em.code with
          | Option.some c => c ++ ": " ++ em.message
          | Option.none => em.message
      | Option.none =>
          let text := jsToString v
          if !text.isEmpty && text ≠ "[object Object]" then text
          else
            match jsonStringify v with
            | Option.some s => s
            | Option.none => "Unknown error"

/-- Tag distinguishing the two early-return cases of `formatError`. -/
def isStringOrError : JSValue → Bool
  | JSValue.vStr _ => true
  | JSValue.vError _ => true
  | _ => false

/-!
Model of `handleRunOnBoot` from src/src/routes/+page.svelte. The handler
returns immediately when no runner is selected; when the service provider of
the selected runner is `external` it sets an error message and performs no
backend call; otherwise it calls `installService` (only when enabling) and
then `setRunOnBoot`.
-/

/-- A backend call issued by `handleRunOnBoot`. -/
inductive BootCall
  | installServiceCall (runnerId : String)
  | setRunOnBootCall (runnerId : String) (enabled : Bool)
deriving DecidableEq, Repr

/-- The observable outcome of `handleRunOnBoot`: the error message it sets,
and the backend calls it issues, in order. -/
structure RunOnBootOutcome where
  errorMessage : Option String
  calls : List BootCall
deriving DecidableEq, Repr

/-- `handleRunOnBoot` from src/src/routes/+page.svelte, as a function of the
selected runner id, the profile `selectedRunner()` resolves to, and the
checkbox value. -/
def handleRunOnBoot (selectedRunnerId : Option String)
    (runner : Option RunnerProfile) (enabled : Bool) : RunOnBootOutcome :=
  match selectedRunnerId with
  | Option.none => ⟨Option.none, []⟩
  | Option.some rid =>
      if (runner.map fun r => r.service.provider) = Option.some ServiceProvider.external then
        ⟨Option.some "Runner is managed by an external service. Replace it before enabling run on boot.", []⟩
      else
        ⟨Option.none,
          (if enabled then [BootCall.installServiceCall rid] else [])
            ++ [BootCall.setRunOnBootCall rid enabled]⟩

/-!
Model of the onboarding wizard option state and execute step, from
src/src/routes/onboarding/+page.svelte. `candidateOptions` is a
candidate-id-keyed record of `CandidateChoice` values; it is created by
`initCandidateOptions` after a scan, rewritten by `handleSaveAdoptionDefault`
when the default strategy is saved in step 4, and patched by the per-runner
review controls through `updateCandidateOption`.
-/

/-- `AdoptionDefault` from src/src/lib/api.ts. -/
inductive AdoptionDefault
  | adopt
  | move_verify_delete
deriving DecidableEq, Repr

/-- `CandidateChoice` from src/src/routes/onboarding/+page.svelte. The source
field `include` is spelled `included` because `include` is a Lean keyword. -/
structure CandidateChoice where
  included : Bool
  strategy : AdoptionDefault
  replaceService : Bool
  deleteOriginalAfterVerify : Bool
deriving DecidableEq, Repr

/-- The `candidateOptions` record, keyed by candidate id. -/
def CandidateOptionsMap : Type := List (String × CandidateChoice)

/-- Record lookup `candidateOptions[candidateId]`. -/
def lookupChoice (opts : CandidateOptionsMap) (candidateId : String) :
    Option CandidateChoice :=
  (List.find? (fun p => p.1 = candidateId) opts).map (fun p => p.2)

/-- `initCandidateOptions` from src/src/routes/onboarding/+page.svelte: every
scanned candidate starts included, with the current default strategy,
replace-service off and delete-original off. -/
def initCandidateOptions (candidates : List DiscoveryCandidate)
    (adoptionDefault : AdoptionDefault) : CandidateOptionsMap :=
  candidates.map fun candidate =>
    (candidate.candidate_id,
      { included := true
        strategy := adoptionDefault
        replaceService := false
        deleteOriginalAfterVerify := false })

/-- `updateCandidateOption` from src/src/routes/onboarding/+page.svelte:
patch the entry for the candidate id when it exists, else do nothing. -/
def updateCandidateOption (opts : CandidateOptionsMap) (candidateId : String)
    (patch : CandidateChoice → CandidateChoice) : CandidateOptionsMap :=
  opts.map fun p => if p.1 = candidateId then (p.1, patch p.2) else p

/-- The per-candidate loop of `handleSaveAdoptionDefault`: the strategy of
every scanned candidate that has an options entry is overwritten with the
saved default; the other `CandidateChoice` fields are left unchanged. -/
def saveAdoptionDefault (candidates : List DiscoveryCandidate)
    (opts : CandidateOptionsMap) (adoptionDefault : AdoptionDefault) :
    CandidateOptionsMap :=
  opts.map fun p =>
    if candidates.any fun candidate => candidate.candidate_id = p.1 then
      (p.1, { p.2 with strategy := adoptionDefault })
    else p

/-- The patch applied by the per-runner review move-strategy radio button:
strategy becomes `move_verify_delete`, and when the candidate has a detected
service `replaceService` is forced on in the same patch. -/
def selectMoveStrategyPatch (candidate : DiscoveryCandidate)
    (choice : CandidateChoice) : CandidateChoice :=
  if candidate.service_present then
    { choice with strategy := AdoptionDefault.move_verify_delete, replaceService := true }
  else
    { choice with strategy := AdoptionDefault.move_verify_delete }

/-- The displayed state of the review replace-service checkbox:
`(strategy === "move_verify_delete") || (replaceService ?? false)`. -/
def replaceServiceCheckboxChecked (choice : Option CandidateChoice) : Bool :=
  decide ((choice.map fun c => c.strategy) = Option.some AdoptionDefault.move_verify_delete)
    || (match choice with
        | Option.some c => c.replaceService
        | Option.none => false)

/-- The options object passed to `discoverImport` by `handleExecute`:
`replace_service` from the choice, `move_install` iff the strategy is
move-verify-delete, and the two auto flags always false. -/
structure ImportOptions where
  replace_service : Bool
  move_install : Bool
  verify_after_move : Bool
  delete_original_after_verify : Bool
deriving DecidableEq, Repr

/-- The result object of `discoverVerifyRunner`. -/
structure VerifyResult where
  ok : Bool
  reason : Option String := Option.none
deriving DecidableEq, Repr

/-- A backend call issued during the onboarding execute step, in order. -/
inductive EngineCall
  | importCall (candidateId : String) (options : ImportOptions)
  | verifyCall (runnerId : String)
  | deleteOriginalCall (runnerId : String)
deriving DecidableEq, Repr

/-- The status values of `ExecuteStatus` in the onboarding wizard. -/
inductive ExecStatusKind
  | pending
  | running
  | success
  | needs_action
  | failed
deriving DecidableEq, Repr

/-- The final `ExecuteStatus` recorded for a candidate by `handleExecute`. -/
structure ExecuteStatus where
  status : ExecStatusKind
  detail : String
  runnerId : Option String := Option.none
deriving DecidableEq, Repr

/-- The backend responses `handleExecute` can observe: the adoption result
per candidate id, the verification result per runner id, the prompt response
per candidate (none is a cancelled prompt), and the delete result per runner
id. -/
structure ExecEnv where
  importResult : String → Except String String
  verifyResult : String → VerifyResult
  promptInput : String → Option String
  deleteResult : String → Except String Unit

/-- The `discoverImport` options built by `handleExecute` for a choice. -/
def importOptionsFor (choice : CandidateChoice) : ImportOptions :=
  { replace_service := choice.replaceService
    move_install := decide (choice.strategy = AdoptionDefault.move_verify_delete)
    verify_after_move := false
    delete_original_after_verify := false }

/-- The loop body of `handleExecute` for one included candidate: adopt via
`discoverImport`; for the move strategy verify via `discoverVerifyRunner`,
mark `needs_action` on a failed verification, and only after a successful
verification, a selected delete option and a matching typed confirmation
call `discoverDeleteOriginalInstall`. Returns the backend calls in order and
the final status. -/
def execCandidate (env : ExecEnv) (candidate : DiscoveryCandidate)
    (choice : CandidateChoice) : List EngineCall × ExecuteStatus :=
  let iopts := importOptionsFor choice
  match env.importResult candidate.candidate_id with
  | Except.error e =>
      ([EngineCall.importCall candidate.candidate_id iopts],
        { status := ExecStatusKind.failed, detail := e })
  | Except.ok runnerId =>
      if choice.strategy = AdoptionDefault.move_verify_delete then
        let verify := env.verifyResult runnerId
        if verify.ok = false then
          ([EngineCall.importCall candidate.candidate_id iopts,
            EngineCall.verifyCall runnerId],
            { status := ExecStatusKind.needs_action,
              detail := verify.reason.getD "Verification failed",
              runnerId := Option.some runnerId })
        else if choice.deleteOriginalAfterVerify then
          if env.promptInput candidate.candidate_id
              ≠ Option.some (candidate.runner_name.getD "delete") then
            ([EngineCall.importCall candidate.candidate_id iopts,
              EngineCall.verifyCall runnerId],
              { status := ExecStatusKind.needs_action,
                detail := "Deletion skipped by user",
                runnerId := Option.some runnerId })
          else
            match env.deleteResult runnerId with
            | Except.ok _ =>
                ([EngineCall.importCall candidate.candidate_id iopts,
                  EngineCall.verifyCall runnerId,
                  EngineCall.deleteOriginalCall runnerId],
                  { status := ExecStatusKind.success,
                    detail := if choice.replaceService then
                        "Moved, verified, service replaced, and original deleted"
                      else "Moved, verified, and original deleted",
                    runnerId := Option.some runnerId })
            | Except.error e =>
                ([EngineCall.importCall candidate.candidate_id iopts,
                  EngineCall.verifyCall runnerId,
                  EngineCall.deleteOriginalCall runnerId],
                  { status := ExecStatusKind.needs_action, detail := e,
                    runnerId := Option.some runnerId })
        else
          ([EngineCall.importCall candidate.candidate_id iopts,
            EngineCall.verifyCall runnerId],
            { status := ExecStatusKind.success,
              detail := if choice.replaceService then
                  "Moved, verified, and service replaced"
                else "Moved and verified",
              runnerId := Option.some runnerId })
      else
        ([EngineCall.importCall candidate.candidate_id iopts],
          { status := ExecStatusKind.success,
            detail := if choice.replaceService then
                "Adopted in place and service replaced"
              else "Adopted in place",
            runnerId := Option.some runnerId })

/-- `handleExecute` from src/src/routes/onboarding/+page.svelte: the loop
over `discoveryCandidates`, skipping candidates without an included options
entry; each included candidate contributes its backend calls and its final
`executeStates` entry. -/
def handleExecuteRuns (env : ExecEnv) (candidates : List DiscoveryCandidate)
    (opts : CandidateOptionsMap) :
    List (DiscoveryCandidate × List EngineCall × ExecuteStatus) :=
  candidates.filterMap fun candidate =>
    match lookupChoice opts candidate.candidate_id with
    | Option.some choice =>
        if choice.included then
          Option.some (candidate, execCandidate env candidate choice)
        else Option.none
    | Option.none => Option.none

/-!
Spec-modelled Verification Engine. The engine itself runs in the Tauri
backend, which is not under src/; src/ only contains its frontend binding
(`discoverVerifyRunner` in src/src/lib/api.ts) and its callers.
-/

/-- The profile fields the Verification Engine reads and writes. -/
structure VerifyProfile where
  install_path : String
  adopted_from_path : Option String
  migration_status : Option MigrationStatus
deriving DecidableEq, Repr

/-- The procedure steps of one verification run (spec §4.4 steps 1-3). -/
inductive VerifyStep
  | stopRunner
  | startFromCurrentPath (path : String)
  | pollLogForMarker
deriving DecidableEq, Repr

/-- Modelled from the spec: `verify(runner_id)` of the Verification Engine
(spec §4.4), whose implementation is in the Tauri backend and missing from
src/. Each run stops any running instance, starts the runner from the
current `install_path`, and polls the diagnostic log for the marker within
the bounded timeout; `healthy` abstracts whether the unchanged runner
produces the marker in time. Marker found → `migration_status := verified`
and `{ok:true}`; timeout → `migration_status := failed` and `{ok:false,
reason}`. Fails with `PreconditionFailed` when `adopted_from_path` is
unset. -/
def verify (p : VerifyProfile) (healthy : Bool) :
    Except String (VerifyResult × List VerifyStep × VerifyProfile) :=
  if p.adopted_from_path = Option.none then Except.error "PreconditionFailed"
  else if healthy then
    Except.ok (⟨true, Option.none⟩,
      [VerifyStep.stopRunner, VerifyStep.startFromCurrentPath p.install_path,
        VerifyStep.pollLogForMarker],
      { p with migration_status := Option.some MigrationStatus.verified })
  else
    Except.ok (⟨false, Option.some "VerificationTimeout"⟩,
      [VerifyStep.stopRunner, VerifyStep.startFromCurrentPath p.install_path,
        VerifyStep.pollLogForMarker],
      { p with migration_status := Option.some MigrationStatus.failed })

/-- Repeated `verify` calls on an unchanged runner: the sequence of results
and the final profile after `n` runs. -/
def verifyRuns (p : VerifyProfile) (healthy : Bool) :
    Nat → List (Except String VerifyResult) × VerifyProfile
  | 0 => ([], p)
  | n + 1 =>
      match verify p healthy with
      | Except.error e =>
          let rest := verifyRuns p healthy n
          (Except.error e :: rest.1, rest.2)
      | Except.ok (r, _, p2) =>
          let rest := verifyRuns p2 healthy n
          (Except.ok r :: rest.1, rest.2)

/-!
Concrete scenario data used by the evaluation and witness theorems below.
-/

/-- A scanned candidate with a detected external service. -/
def sampleServiceCandidate : DiscoveryCandidate :=
  { candidate_id := "cand-1"
    install_path := "/home/dev/actions-runner"
    runner_name := Option.some "runner-one"
    service_present := true
    service_id := Option.some "actions.runner.example.service" }

/-- The options state after scanning `sampleServiceCandidate` with default
strategy `adopt` and then saving `move_verify_delete` as the default in
wizard step 4 (`handleSaveAdoptionDefault`), without touching the per-runner
review controls. -/
def onboardingDefaultMoveOptions : CandidateOptionsMap :=
  saveAdoptionDefault [sampleServiceCandidate]
    (initCandidateOptions [sampleServiceCandidate] AdoptionDefault.adopt)
    AdoptionDefault.move_verify_delete

/-- A backend in which adoption is refused (the Conflict branch of the engine for
a move without service-replacement consent). -/
def conflictEnv : ExecEnv :=
  { importResult := fun _ =>
      Except.error "Conflict: detected external service and replace_service is false"
    verifyResult := fun _ => { ok := false, reason := Option.none }
    promptInput := fun _ => Option.none
    deleteResult := fun _ => Except.ok () }

/-- A review choice selecting move-verify-delete with replace-service and
delete-original enabled. -/
def sampleMoveChoice : CandidateChoice :=
  { included := true
    strategy := AdoptionDefault.move_verify_delete
    replaceService := true
    deleteOriginalAfterVerify := true }

/-- The options map binding `sampleServiceCandidate` to `sampleMoveChoice`. -/
def sampleMoveOptions : CandidateOptionsMap :=
  [("cand-1", sampleMoveChoice)]

/-- A backend in which adoption, verification and deletion all succeed and
the prompt is answered with the runner name. -/
def happyEnv : ExecEnv :=
  { importResult := fun candidateId =>
      if candidateId = "cand-1" then Except.ok "runner-id-1"
      else Except.error "NotFound"
    verifyResult := fun _ => { ok := true, reason := Option.none }
    promptInput := fun _ => Option.some "runner-one"
    deleteResult := fun _ => Except.ok () }

/-- A backend in which adoption succeeds but verification times out. -/
def failVerifyEnv : ExecEnv :=
  { importResult := fun candidateId =>
      if candidateId = "cand-1" then Except.ok "runner-id-1"
      else Except.error "NotFound"
    verifyResult := fun _ => { ok := false, reason := Option.some "VerificationTimeout" }
    promptInput := fun _ => Option.some "runner-one"
    deleteResult := fun _ => Except.ok () }

/-- A profile after a verified move into managed storage. -/
def verifiedMovedProfile : RunnerProfile :=
  { runner_id := "runner-id-1"
    install :=
      { mode := InstallMode.managed
        install_path := "/managed/runner-id-1"
        adopted_from_path := Option.some "/home/dev/actions-runner"
        migration_status := Option.some MigrationStatus.verified }
    service := { installed := true, run_on_boot := true, provider := ServiceProvider.runnerbuddy } }

/-- A profile after an unverified move into managed storage. -/
def movedUnverifiedProfile : RunnerProfile :=
  { runner_id := "runner-id-2"
    install :=
      { mode := InstallMode.managed
        install_path := "/managed/runner-id-2"
        adopted_from_path := Option.some "/home/dev/actions-runner-two"
        migration_status := Option.some MigrationStatus.moved }
    service := { installed := false, run_on_boot := false, provider := ServiceProvider.runnerbuddy } }

/-- An adopted-in-place profile that nevertheless carries an original path
and a non-verified migration status: the three conditions of the rollback
claim hold, yet its install mode is not `managed`. -/
def adoptedWithOriginalProfile : RunnerProfile :=
  { runner_id := "runner-id-3"
    install :=
      { mode := InstallMode.adopted
        install_path := "/home/dev/actions-runner-three"
        adopted_from_path := Option.some "/home/dev/actions-runner-three-old"
        migration_status := Option.some MigrationStatus.moved }
    service := { installed := false, run_on_boot := false, provider := ServiceProvider.runnerbuddy } }

/-- A profile whose service is owned by an external provider. -/
def externalServiceProfile : RunnerProfile :=
  { runner_id := "runner-id-4"
    install :=
      { mode := InstallMode.adopted
        install_path := "/home/dev/actions-runner-four" }
    service :=
      { installed := true, run_on_boot := true, provider := ServiceProvider.external
        external_id := Option.some "actions.runner.example.service"
        external_path := Option.some "/etc/systemd/system/actions.runner.example.service" } }

/-- A migration profile with the original path recorded, as required before
verification applies to a move-based flow. -/
def sampleVerifyProfile : VerifyProfile :=
  { install_path := "/managed/runner-id-1"
    adopted_from_path := Option.some "/home/dev/actions-runner"
    migration_status := Option.some MigrationStatus.moved }

/-- A backend error object with a code and a nested cause message, as a
Tauri command rejection might produce. -/
def sampleNestedErrorValue : JSValue :=
  JSValue.vObj (JSFields.field "code" (JSValue.vStr "Conflict")
    (JSFields.field "cause"
      (JSValue.vObj (JSFields.field "message" (JSValue.vStr "boom") JSFields.nil))
      JSFields.nil))

/-- A plain object with no extractable message. -/
def samplePlainObjectValue : JSValue :=
  JSValue.vObj (JSFields.field "foo" (JSValue.vStr "bar") JSFields.nil)

/-- An object whose `cause` field is an `Error` instance — the standard JS
error-cause pattern. -/
def sampleErrorCauseValue : JSValue :=
  JSValue.vObj (JSFields.field "cause" (JSValue.vError "boom") JSFields.nil)

/-!
Theorems.
-/

/-- Claim C10, counterexample: `scopeLabel` also returns "Scope unknown" for
a non-null scope, namely an org scope whose name is literally that string,
so the fallback does not appear exactly when the argument is null or
undefined. -/
theorem scopeLabel_fallback_counterexample :
    scopeLabel (Option.some (RunnerScope.org "Scope unknown")) = "Scope unknown"
    ∧ Option.some (RunnerScope.org "Scope unknown") ≠ (Option.none : Option RunnerScope) := by
  exact ⟨rfl, by decide⟩

/-- Claim C10 (amended): `scopeLabel` returns "Scope unknown" when its
argument is null or undefined; every repo scope renders owner/repo, which is
never the fallback string; every org scope renders the org name and every
enterprise scope the enterprise slug, which coincide with the fallback
exactly when the name is literally "Scope unknown"; identical scope inputs
always render the same label. -/
theorem scopeLabel_spec (owner repoName orgName slug : String) :
    scopeLabel Option.none = "Scope unknown"
    ∧ scopeLabel (Option.some (RunnerScope.repo owner repoName)) = owner ++ "/" ++ repoName
    ∧ scopeLabel (Option.some (RunnerScope.repo owner repoName)) ≠ "Scope unknown"
    ∧ scopeLabel (Option.some (RunnerScope.org orgName)) = orgName
    ∧ scopeLabel (Option.some (RunnerScope.enterprise slug)) = slug
    ∧ (scopeLabel (Option.some (RunnerScope.org orgName)) = "Scope unknown" ↔ orgName = "Scope unknown")
    ∧ (scopeLabel (Option.some (RunnerScope.enterprise slug)) = "Scope unknown" ↔ slug = "Scope unknown") := by
  refine ⟨rfl, rfl, ?_, rfl, rfl, Iff.rfl, Iff.rfl⟩
  intro h
  have hmem : ('/' : Char) ∈ (owner ++ "/" ++ repoName).data := by
    rw [show owner ++ "/" ++ repoName = (owner ++ "/") ++ repoName from rfl]
    rw [String.data_append, String.data_append]
    exact List.mem_append.mpr (Or.inl (List.mem_append.mpr (Or.inr (by decide))))
  rw [show scopeLabel (Option.some (RunnerScope.repo owner repoName))
      = owner ++ "/" ++ repoName from rfl] at h
  rw [h] at hmem
  exact absurd hmem (by decide)

/-- Claim C10 witness: the amended statement at concrete scopes. -/
theorem scopeLabel_spec_witness :
    scopeLabel (Option.some (RunnerScope.repo "octo" "runner")) = "octo/runner"
    ∧ scopeLabel (Option.some (RunnerScope.org "acme")) = "acme" := by
  exact ⟨(scopeLabel_spec "octo" "runner" "acme" "corp").2.1,
    (scopeLabel_spec "octo" "runner" "acme" "corp").2.2.2.1⟩

/-- Claim C2: the dashboard delete-original action is allowed exactly when
`migration_status` is "verified" and `adopted_from_path` is set (truthy),
so for every other status value (none, moved, failed, or absent) it is
disallowed, and the disabled predicate of the button is off exactly when the UI
is idle and the action is allowed. -/
theorem canDeleteOriginal_spec (r : RunnerProfile) (isBusy : Bool) :
    (canDeleteOriginal (Option.some r) = true ↔
      (r.install.migration_status = Option.some MigrationStatus.verified
        ∧ strTruthy r.install.adopted_from_path = true))
    ∧ canDeleteOriginal Option.none = false
    ∧ (deleteOriginalButtonDisabled isBusy (Option.some r) = false ↔
        (isBusy = false ∧ canDeleteOriginal (Option.some r) = true)) := by
  refine ⟨?_, rfl, ?_⟩
  · simp [canDeleteOriginal]
  · cases isBusy <;> simp [deleteOriginalButtonDisabled]

/-- Claim C2 witness: a verified moved profile is deletable and its button
is enabled while idle; clearing the status disables it. -/
theorem canDeleteOriginal_spec_witness :
    canDeleteOriginal (Option.some verifiedMovedProfile) = true
    ∧ deleteOriginalButtonDisabled false (Option.some verifiedMovedProfile) = false
    ∧ canDeleteOriginal (Option.some movedUnverifiedProfile) = false := by
  refine ⟨(canDeleteOriginal_spec verifiedMovedProfile false).1.mpr (by decide),
    (canDeleteOriginal_spec verifiedMovedProfile false).2.2.mpr ⟨rfl, ?_⟩, ?_⟩
  · exact (canDeleteOriginal_spec verifiedMovedProfile false).1.mpr (by decide)
  · by_contra hcan
    have h := (canDeleteOriginal_spec movedUnverifiedProfile false).1.mp
      (by revert hcan; cases canDeleteOriginal (Option.some movedUnverifiedProfile) <;> simp)
    exact absurd h.1 (by decide)

/-- Claim C4, counterexample: a profile satisfying all three claimed
conditions (status not verified, provider not external, original path set)
for which `canRollbackMove` still returns false, because the code also
requires `install.mode == "managed"`. -/
theorem canRollbackMove_claim_counterexample :
    canRollbackMove (Option.some adoptedWithOriginalProfile) = false
    ∧ adoptedWithOriginalProfile.install.migration_status ≠ Option.some MigrationStatus.verified
    ∧ adoptedWithOriginalProfile.service.provider ≠ ServiceProvider.external
    ∧ strTruthy adoptedWithOriginalProfile.install.adopted_from_path = true := by
  decide

/-- Claim C4 (amended): the dashboard permits rollback exactly when the
install mode is managed, the migration status is not "verified", the service
provider is not external, and `adopted_from_path` is set (truthy); the
disabled predicate of the button is off exactly when the UI is idle and rollback
is permitted. -/
theorem canRollbackMove_spec (r : RunnerProfile) (isBusy : Bool) :
    (canRollbackMove (Option.some r) = true ↔
      (r.install.mode = InstallMode.managed
        ∧ strTruthy r.install.adopted_from_path = true
        ∧ r.service.provider ≠ ServiceProvider.external
        ∧ r.install.migration_status ≠ Option.some MigrationStatus.verified))
    ∧ canRollbackMove Option.none = false
    ∧ (rollbackMoveButtonDisabled isBusy (Option.some r) = false ↔
        (isBusy = false ∧ canRollbackMove (Option.some r) = true)) := by
  refine ⟨?_, rfl, ?_⟩
  · simp only [canRollbackMove]
    split
    · simp_all
    · split
      · simp_all
      · split
        · simp_all
        · simp_all [and_comm]
  · cases isBusy <;> simp [rollbackMoveButtonDisabled]

/-- Claim C4 witness: an unverified managed move can be rolled back and its
button is enabled while idle. -/
theorem canRollbackMove_spec_witness :
    canRollbackMove (Option.some movedUnverifiedProfile) = true
    ∧ rollbackMoveButtonDisabled false (Option.some movedUnverifiedProfile) = false := by
  refine ⟨(canRollbackMove_spec movedUnverifiedProfile false).1.mpr (by decide), ?_⟩
  exact (canRollbackMove_spec movedUnverifiedProfile false).2.2.mpr
    ⟨rfl, (canRollbackMove_spec movedUnverifiedProfile false).1.mpr (by decide)⟩

/-- Claim C5: for a selected runner whose service provider is external,
`handleRunOnBoot` sets the error message and issues no backend call, for
either checkbox value; the `installService`/`setRunOnBoot` branch is
unreachable under that precondition. -/
theorem handleRunOnBoot_external_noop (rid : String) (r : RunnerProfile) (enabled : Bool)
    (hext : r.service.provider = ServiceProvider.external) :
    handleRunOnBoot (Option.some rid) (Option.some r) enabled =
      { errorMessage := Option.some
          "Runner is managed by an external service. Replace it before enabling run on boot."
        calls := [] } := by
  simp [handleRunOnBoot, hext]

/-- Claim C5 witness: the concrete externally-managed profile, with the
checkbox both enabled and disabled. -/
theorem handleRunOnBoot_external_noop_witness :
    handleRunOnBoot (Option.some "runner-id-4") (Option.some externalServiceProfile) true =
      { errorMessage := Option.some
          "Runner is managed by an external service. Replace it before enabling run on boot."
        calls := [] }
    ∧ handleRunOnBoot (Option.some "runner-id-4") (Option.some externalServiceProfile) false =
      { errorMessage := Option.some
          "Runner is managed by an external service. Replace it before enabling run on boot."
        calls := [] } := by
  exact ⟨handleRunOnBoot_external_noop "runner-id-4" externalServiceProfile true rfl,
    handleRunOnBoot_external_noop "runner-id-4" externalServiceProfile false rfl⟩

/-- Claim C1, evaluation at the failing input: after scanning a
service-present candidate and saving `move_verify_delete` as the default
strategy in wizard step 4 (without touching the per-runner review controls),
the options state carries the move strategy with `replaceService = false`,
the review checkbox is nevertheless displayed as checked, and executing
calls `discoverImport` with `move_install = true` and
`replace_service = false` — the Conflict branch of the engine for
move-without-consent, which the claim says is unreachable from the UI. -/
theorem onboarding_move_without_replace_reachable :
    lookupChoice onboardingDefaultMoveOptions "cand-1" =
      Option.some
        { included := true
          strategy := AdoptionDefault.move_verify_delete
          replaceService := false
          deleteOriginalAfterVerify := false }
    ∧ sampleServiceCandidate.service_present = true
    ∧ replaceServiceCheckboxChecked (lookupChoice onboardingDefaultMoveOptions "cand-1") = true
    ∧ handleExecuteRuns conflictEnv [sampleServiceCandidate] onboardingDefaultMoveOptions =
        [(sampleServiceCandidate,
          [EngineCall.importCall "cand-1"
            { replace_service := false, move_install := true,
              verify_after_move := false, delete_original_after_verify := false }],
          { status := ExecStatusKind.failed,
            detail := "Conflict: detected external service and replace_service is false",
            runnerId := Option.none })] := by
  decide

/-- Claim C7: repeated `verify` on an unchanged runner is idempotent — with
the original path recorded, every run on a healthy runner returns
`{ok:true}` and every run on an unhealthy runner returns `{ok:false}` with
the timeout reason; the paths of the profile are untouched, and a further run
after any number of runs (including after a failed result) repeats the same
full stop/start/poll procedure with the same outcome. -/
theorem verify_idempotent (p : VerifyProfile) (healthy : Bool) (n : Nat)
    (hset : p.adopted_from_path ≠ Option.none) :
    (verifyRuns p healthy n).1 =
      List.replicate n (Except.ok
        { ok := healthy
          reason := if healthy then Option.none else Option.some "VerificationTimeout" })
    ∧ (verifyRuns p healthy n).2.install_path = p.install_path
    ∧ (verifyRuns p healthy n).2.adopted_from_path = p.adopted_from_path
    ∧ verify ((verifyRuns p healthy n).2) healthy = verify p healthy := by
  induction n generalizing p with
  | zero => simp [verifyRuns]
  | succ n ih =>
      cases healthy with
      | true =>
          have ih2 := ih { p with migration_status := Option.some MigrationStatus.verified }
            (by simpa using hset)
          simp [verifyRuns, verify, hset, List.replicate_succ] at ih2 ⊢
          exact ⟨ih2.1, ih2.2.1, ih2.2.2⟩
      | false =>
          have ih2 := ih { p with migration_status := Option.some MigrationStatus.failed }
            (by simpa using hset)
          simp [verifyRuns, verify, hset, List.replicate_succ] at ih2 ⊢
          exact ⟨ih2.1, ih2.2.1, ih2.2.2⟩

/-- Claim C7 witness: two healthy runs both return ok, two unhealthy runs
both return the timeout failure. -/
theorem verify_idempotent_witness :
    (verifyRuns sampleVerifyProfile true 2).1 =
      List.replicate 2 (Except.ok { ok := true, reason := Option.none })
    ∧ (verifyRuns sampleVerifyProfile false 2).1 =
      List.replicate 2 (Except.ok { ok := false, reason := Option.some "VerificationTimeout" }) := by
  constructor
  · have h := verify_idempotent sampleVerifyProfile true 2 (by decide)
    simpa using h.1
  · have h := verify_idempotent sampleVerifyProfile false 2 (by decide)
    simpa using h.1

/-- Membership in `handleExecuteRuns` comes from an included options entry
for the candidate, whose `execCandidate` run produced the calls and the
status. -/
theorem mem_handleExecuteRuns {env : ExecEnv} {cands : List DiscoveryCandidate}
    {opts : CandidateOptionsMap} {c : DiscoveryCandidate} {calls : List EngineCall}
    {st : ExecuteStatus}
    (h : (c, calls, st) ∈ handleExecuteRuns env cands opts) :
    ∃ choice, lookupChoice opts c.candidate_id = Option.some choice
      ∧ choice.included = true
      ∧ calls = (execCandidate env c choice).1
      ∧ st = (execCandidate env c choice).2 := by
  rcases List.mem_filterMap.mp h with ⟨a, _, hf⟩
  revert hf
  unfold handleExecuteRuns at h
  cases hlook : lookupChoice opts a.candidate_id with
  | none => simp
  | some ch =>
      by_cases hinc : ch.included = true
      · simp only [hinc, if_true, Option.some.injEq]
        intro hf
        have ha : a = c := congrArg (fun t => t.1) hf
        have hcalls : (execCandidate env a ch).1 = calls := by
          have := congrArg (fun t => t.2.1) hf
          simpa using this
        have hst : (execCandidate env a ch).2 = st := by
          have := congrArg (fun t => t.2.2) hf
          simpa using this
        subst ha
        exact ⟨ch, hlook, hinc, hcalls.symm, hst.symm⟩
      · simp [hinc]

/-- Claim C3: in the onboarding execute flow,
`discoverDeleteOriginalInstall` is called for a candidate only when, in that
same run, the move strategy of that candidate was selected with the
delete-original option, its `discoverVerifyRunner` call (on the runner id
returned by `discoverImport`) returned ok, and the typed confirmation
matched the expected runner name — and then the calls are exactly import,
verify, delete in order; on a failed verification the candidate is marked
`needs_action` and no delete call is made. -/
theorem handleExecute_delete_gated (env : ExecEnv)
    (candidates : List DiscoveryCandidate) (opts : CandidateOptionsMap)
    (candidate : DiscoveryCandidate) (calls : List EngineCall) (st : ExecuteStatus)
    (choice : CandidateChoice) (runnerId : String)
    (hmem : (candidate, calls, st) ∈ handleExecuteRuns env candidates opts)
    (hchoice : lookupChoice opts candidate.candidate_id = Option.some choice) :
    (EngineCall.deleteOriginalCall runnerId ∈ calls →
      choice.strategy = AdoptionDefault.move_verify_delete
      ∧ choice.deleteOriginalAfterVerify = true
      ∧ env.importResult candidate.candidate_id = Except.ok runnerId
      ∧ (env.verifyResult runnerId).ok = true
      ∧ env.promptInput candidate.candidate_id
          = Option.some (candidate.runner_name.getD "delete")
      ∧ calls = [EngineCall.importCall candidate.candidate_id (importOptionsFor choice),
          EngineCall.verifyCall runnerId, EngineCall.deleteOriginalCall runnerId])
    ∧ (choice.strategy = AdoptionDefault.move_verify_delete →
      env.importResult candidate.candidate_id = Except.ok runnerId →
      (env.verifyResult runnerId).ok = false →
      st.status = ExecStatusKind.needs_action
      ∧ calls = [EngineCall.importCall candidate.candidate_id (importOptionsFor choice),
          EngineCall.verifyCall runnerId]) := by
  obtain ⟨choice', hlook, hinc, hcalls, hst⟩ := mem_handleExecuteRuns hmem
  rw [hchoice] at hlook
  obtain rfl : choice = choice' := Option.some.inj hlook
  subst hcalls hst
  constructor
  · intro hdel
    rcases himp : env.importResult candidate.candidate_id with e | rid
    · simp [execCandidate, himp] at hdel
    · by_cases hstrat : choice.strategy = AdoptionDefault.move_verify_delete
      case neg => simp [execCandidate, himp, hstrat] at hdel
      case pos =>
        by_cases hvok : (env.verifyResult rid).ok
        case neg =>
          have hvfail : (env.verifyResult rid).ok = false := by
            revert hvok
            cases (env.verifyResult rid).ok <;> simp
          simp [execCandidate, himp, hstrat, hvfail] at hdel
        case pos =>
          have hvfail : ¬((env.verifyResult rid).ok = false) := by simp [hvok]
          by_cases hdov : choice.deleteOriginalAfterVerify
          case neg =>
            have hdov2 : choice.deleteOriginalAfterVerify = false := by
              revert hdov
              cases choice.deleteOriginalAfterVerify <;> simp
            simp [execCandidate, himp, hstrat, hvfail, hdov2] at hdel
          case pos =>
            by_cases hprompt : env.promptInput candidate.candidate_id
                = Option.some (candidate.runner_name.getD "delete")
            case neg =>
              simp [execCandidate, himp, hstrat, hvfail, hdov, hprompt] at hdel
            case pos =>
              rcases hdelres : env.deleteResult rid with u | er
              all_goals
                simp [execCandidate, himp, hstrat, hvfail, hdov, hprompt, hdelres] at hdel
                subst hdel
                refine ⟨hstrat, hdov, rfl, hvok, hprompt, ?_⟩
                simp [execCandidate, himp, hstrat, hvfail, hdov, hprompt, hdelres]
  · intro hstrat himp hvfail
    constructor
    · simp [execCandidate, himp, hstrat, hvfail]
    · simp [execCandidate, himp, hstrat, hvfail]

/-- Claim C3 witness: with every backend call succeeding and the prompt
answered with the runner name the delete is gated exactly as stated, and
with a timed-out verification the candidate ends in needs-action. -/
theorem handleExecute_delete_gated_witness :
    (happyEnv.verifyResult "runner-id-1").ok = true
    ∧ happyEnv.promptInput "cand-1" = Option.some "runner-one"
    ∧ sampleMoveChoice.deleteOriginalAfterVerify = true
    ∧ (ExecuteStatus.mk ExecStatusKind.needs_action "VerificationTimeout"
        (Option.some "runner-id-1")).status = ExecStatusKind.needs_action := by
  have h1 := (handleExecute_delete_gated happyEnv [sampleServiceCandidate]
    sampleMoveOptions sampleServiceCandidate
    [EngineCall.importCall "cand-1" (importOptionsFor sampleMoveChoice),
      EngineCall.verifyCall "runner-id-1", EngineCall.deleteOriginalCall "runner-id-1"]
    { status := ExecStatusKind.success
      detail := "Moved, verified, service replaced, and original deleted"
      runnerId := Option.some "runner-id-1" }
    sampleMoveChoice "runner-id-1" (by decide) (by decide)).1 (by decide)
  have h2 := (handleExecute_delete_gated failVerifyEnv [sampleServiceCandidate]
    sampleMoveOptions sampleServiceCandidate
    [EngineCall.importCall "cand-1" (importOptionsFor sampleMoveChoice),
      EngineCall.verifyCall "runner-id-1"]
    { status := ExecStatusKind.needs_action
      detail := "VerificationTimeout"
      runnerId := Option.some "runner-id-1" }
    sampleMoveChoice "runner-id-1" (by decide) (by decide)).2 (by decide) (by rfl)
    (by decide)
  exact ⟨h1.2.2.2.1, h1.2.2.2.2.1, h1.2.1, h2.1⟩

/-- Claim C6: every adoption issued by the onboarding execute step passes
`verify_after_move = false` and `delete_original_after_verify = false` to
`discoverImport`, whose call is always the first backend call for the
candidate; for the move strategy the only verification is the separate
`discoverVerifyRunner` call issued immediately after a successful import (on
the runner id the import returned), and for the adopt-in-place strategy the
calls of the candidate are exactly the single import — no verify call at all. -/
theorem handleExecute_import_flags (env : ExecEnv)
    (candidates : List DiscoveryCandidate) (opts : CandidateOptionsMap)
    (candidate : DiscoveryCandidate) (calls : List EngineCall) (st : ExecuteStatus)
    (choice : CandidateChoice)
    (hmem : (candidate, calls, st) ∈ handleExecuteRuns env candidates opts)
    (hchoice : lookupChoice opts candidate.candidate_id = Option.some choice) :
    calls.head? = Option.some
      (EngineCall.importCall candidate.candidate_id (importOptionsFor choice))
    ∧ (importOptionsFor choice).verify_after_move = false
    ∧ (importOptionsFor choice).delete_original_after_verify = false
    ∧ (choice.strategy = AdoptionDefault.adopt →
        calls = [EngineCall.importCall candidate.candidate_id (importOptionsFor choice)])
    ∧ (choice.strategy = AdoptionDefault.move_verify_delete →
        calls.tail.head? =
          (env.importResult candidate.candidate_id).toOption.map EngineCall.verifyCall) := by
  obtain ⟨choice', hlook, hinc, hcalls, hst⟩ := mem_handleExecuteRuns hmem
  rw [hchoice] at hlook
  obtain rfl : choice = choice' := Option.some.inj hlook
  subst hcalls hst
  rcases himp : env.importResult candidate.candidate_id with e | rid
  · by_cases hstrat : choice.strategy = AdoptionDefault.move_verify_delete
    · simp [execCandidate, importOptionsFor, himp, hstrat, Except.toOption]
    · simp [execCandidate, importOptionsFor, himp, hstrat, Except.toOption]
  · by_cases hstrat : choice.strategy = AdoptionDefault.move_verify_delete
    case neg =>
      have hadopt : choice.strategy = AdoptionDefault.adopt := by
        revert hstrat
        cases choice.strategy <;> simp
      simp [execCandidate, importOptionsFor, himp, hadopt, Except.toOption]
    case pos =>
      by_cases hvok : (env.verifyResult rid).ok
      case neg =>
        have hvfail : (env.verifyResult rid).ok = false := by
          revert hvok
          cases (env.verifyResult rid).ok <;> simp
        simp [execCandidate, importOptionsFor, himp, hstrat, hvfail, Except.toOption]
      case pos =>
        have hvfail : ¬((env.verifyResult rid).ok = false) := by simp [hvok]
        by_cases hdov : choice.deleteOriginalAfterVerify
        case neg =>
          have hdov2 : choice.deleteOriginalAfterVerify = false := by
            revert hdov
            cases choice.deleteOriginalAfterVerify <;> simp
          simp [execCandidate, importOptionsFor, himp, hstrat, hvfail, hdov2, Except.toOption]
        case pos =>
          by_cases hprompt : env.promptInput candidate.candidate_id
              = Option.some (candidate.runner_name.getD "delete")
          case neg =>
            simp [execCandidate, importOptionsFor, himp, hstrat, hvfail, hdov, hprompt, Except.toOption]
          case pos =>
            rcases hdelres : env.deleteResult rid with u | er
            · simp [execCandidate, importOptionsFor, himp, hstrat, hvfail, hdov, hprompt, hdelres,
                Except.toOption]
            · simp [execCandidate, importOptionsFor, himp, hstrat, hvfail, hdov, hprompt, hdelres,
                Except.toOption]

/-- Claim C6 witness: in the all-success scenario the first call is the
adoption call with both auto flags off, followed by the separate verify
call. -/
theorem handleExecute_import_flags_witness :
    [EngineCall.importCall "cand-1" (importOptionsFor sampleMoveChoice),
      EngineCall.verifyCall "runner-id-1",
      EngineCall.deleteOriginalCall "runner-id-1"].head? =
      Option.some (EngineCall.importCall "cand-1" (importOptionsFor sampleMoveChoice))
    ∧ (importOptionsFor sampleMoveChoice).verify_after_move = false
    ∧ (importOptionsFor sampleMoveChoice).delete_original_after_verify = false := by
  have h := handleExecute_import_flags happyEnv [sampleServiceCandidate]
    sampleMoveOptions sampleServiceCandidate
    [EngineCall.importCall "cand-1" (importOptionsFor sampleMoveChoice),
      EngineCall.verifyCall "runner-id-1", EngineCall.deleteOriginalCall "runner-id-1"]
    { status := ExecStatusKind.success
      detail := "Moved, verified, service replaced, and original deleted"
      runnerId := Option.some "runner-id-1" }
    sampleMoveChoice (by decide) (by decide)
  exact ⟨h.1, h.2.1, h.2.2.1⟩

/-- Claim C9: `formatError` is a total function into strings (its recursion
through `extractMessage` terminates on every representable value, so it
never throws): a string input is returned unchanged; an `Error` yields its
message, or its `String()` rendering "Error" when the message is empty; any
other value with an extractable message yields that message, prefixed with
the code and ": " when a code string is present; and any other value without
one yields its `String()` rendering when that is truthy and not the generic
object tag, else its JSON rendering (with "Unknown error" as the final
fallback). -/
theorem formatError_spec (s m msg : String) (code : Option String) (v w : JSValue)
    (hv : isStringOrError v = false)
    (hmsg : extractMessage v = Option.some ⟨code, msg⟩)
    (hw : isStringOrError w = false)
    (hnone : extractMessage w = Option.none) :
    formatError (JSValue.vStr s) = s
    ∧ formatError (JSValue.vError m) = (if m.isEmpty then "Error" else m)
    ∧ formatError v = (match code with
        | Option.some c => c ++ ": " ++ msg
        | Option.none => msg)
    ∧ formatError w = (if !(jsToString w).isEmpty && jsToString w ≠ "[object Object]"
        then jsToString w
        else (jsonStringify w).getD "Unknown error") := by
  refine ⟨rfl, ?_, ?_, ?_⟩
  · cases hm : m.isEmpty <;> simp [formatError, jsToString, hm]
  · cases v with
    | vStr s2 => simp [isStringOrError] at hv
    | vError m2 => simp [isStringOrError] at hv
    | vNum r => simp [extractMessage] at hmsg
    | vBool b => simp [extractMessage] at hmsg
    | vNull => simp [extractMessage] at hmsg
    | vUndefined => simp [extractMessage] at hmsg
    | vObj fields =>
        simp only [formatError, hmsg]
        cases code <;> rfl
  · cases w with
    | vStr s2 => simp [isStringOrError] at hw
    | vError m2 => simp [isStringOrError] at hw
    | vNum r =>
        simp only [formatError]
        rw [hnone]
        cases hjson : jsonStringify (JSValue.vNum r) <;> simp [Option.getD]
    | vBool b =>
        simp only [formatError]
        rw [hnone]
        cases hjson : jsonStringify (JSValue.vBool b) <;> simp [Option.getD]
    | vNull =>
        simp only [formatError]
        rw [hnone]
        cases hjson : jsonStringify JSValue.vNull <;> simp [Option.getD]
    | vUndefined =>
        simp only [formatError]
        rw [hnone]
        cases hjson : jsonStringify JSValue.vUndefined <;> simp [Option.getD]
    | vObj fields =>
        simp only [formatError]
        rw [hnone]
        cases hjson : jsonStringify (JSValue.vObj fields) <;> simp [Option.getD]

/-- Claim C9 witness: a code with a nested cause message renders with the
code prefix, an object whose cause is an `Error` instance renders that
message of the Error, and a plain object without one renders as JSON. -/
theorem formatError_spec_witness :
    formatError sampleNestedErrorValue = "Conflict: boom"
    ∧ formatError sampleErrorCauseValue = "boom"
    ∧ formatError samplePlainObjectValue = "\x7b\"foo\":\"bar\"\x7d" := by
  have hmsg : extractMessage sampleNestedErrorValue
      = Option.some ⟨Option.some "Conflict", "boom"⟩ := by
    simp [sampleNestedErrorValue, extractMessage, extractNestedKey, readStringField,
      jlookup]
    decide
  have hmsg2 : extractMessage sampleErrorCauseValue
      = Option.some ⟨Option.none, "boom"⟩ := by
    simp [sampleErrorCauseValue, extractMessage, extractNestedKey, readStringField,
      jlookup]
    decide
  have hnone : extractMessage samplePlainObjectValue = Option.none := by
    simp [samplePlainObjectValue, extractMessage, extractNestedKey, readStringField,
      jlookup]
  have h := formatError_spec "x" "y" "boom" (Option.some "Conflict")
    sampleNestedErrorValue samplePlainObjectValue rfl hmsg rfl hnone
  have h2 := formatError_spec "x" "y" "boom" Option.none
    sampleErrorCauseValue samplePlainObjectValue rfl hmsg2 rfl hnone
  refine ⟨h.2.2.1, h2.2.2.1, ?_⟩
  rw [h.2.2.2]
  rfl

end RunnerBuddy
